import Mathlib

/-!
Verification development for mod_pgconn, an httpd module providing bounded
pools of PostgreSQL connections.

The definitions below are a shallow embedding of src/mod_pgconn.c and
src/mod_pgconn.h.  C pointers that may be NULL are embedded as `Option`;
C byte strings (NUL-free) are embedded as `List Nat`; machine integers that
stay in range are embedded as `Int`/`Nat` at their mathematical value.
Code paths whose C behaviour is undefined (a NULL dereference, a division
by zero) are embedded as `Option.none` results: the function has no defined
outcome there.

The APR resource-list primitive (apr_reslist_create / apr_reslist_acquire /
apr_reslist_release / apr_reslist_acquired_count) is library code that is
not part of this repository; those four operations are modelled from the
specification of the Resource List Engine, as marked on their doc comments.
Everything else is translated directly from the C source.
-/

set_option autoImplicit false

namespace ModPgconn

/-- APR status codes as this module observes them: the source only ever
distinguishes `APR_SUCCESS` from the failure code `APR_EGENERAL`. -/
inductive AprStatus where
  | APR_SUCCESS
  | APR_EGENERAL
  deriving DecidableEq, Repr

/-- The API return codes of mod_pgconn.h (enum ePGconnStatus).  The numeric
values of the C enum are irrelevant to the claims; the constructors keep the
C names. -/
inductive ePGconnStatus where
  | PGCONN_ALREADYACQUIRED
  | PGCONN_ACQUIRED
  | PGCONN_RELEASED
  | PGCONN_UNAVAILABLE
  | PGCONN_BAD
  deriving DecidableEq, Repr

/-- The Catalog Cache modes of operation (enum eCatalogCache). -/
inductive eCatalogCache where
  | DISABLED
  | ENABLED
  | REQUIRED
  deriving DecidableEq, Repr

/-- A libpq connection as the module observes it: `statusOk` is the current
value of the check `PQstatus(conn) == CONNECTION_OK`; `statusAfterReset` is
the value that check would have after a `PQreset` call (the outcome of the
backend reconnect, an external event); `tracing` records whether `PQtrace`
is attached; `id` distinguishes connection objects. -/
structure ConnSt where
  id : Nat
  statusOk : Bool
  statusAfterReset : Bool
  tracing : Bool
  deriving DecidableEq, Repr

/-- PQreset attempts to re-establish the backend session in place: after the
call, the liveness check reports the reconnect outcome. -/
def PQreset (c : ConnSt) : ConnSt :=
  { c with statusOk := c.statusAfterReset }

/-- PQuntrace detaches tracing from a connection. -/
def PQuntrace (c : ConnSt) : ConnSt :=
  { c with tracing := false }

/-- PQtrace attaches tracing to a connection. -/
def PQtrace (c : ConnSt) : ConnSt :=
  { c with tracing := true }

/-- Modelled from the spec: the internal state of one Resource List Engine
(the apr_reslist_t of the source, whose implementation is not part of this
repository).  `idle` holds the idle resources most recently released first;
`acquiredCount` counts resources currently held by callers; `rmin`, `rsmax`,
`rhmax`, `rttl` are the bound minimum / soft maximum / hard maximum / idle
time-to-live configuration.  `fresh` is the stream of connections the bound
constructor would produce on successive construction attempts (an external
outcome, threaded explicitly).  Idle timestamps and TTL eviction are not
represented: every claim under verification concerns TTL-free behaviour,
and the spec makes a zero TTL mean no eviction. -/
structure Reslist where
  idle : List ConnSt
  acquiredCount : Nat
  rmin : Int
  rsmax : Int
  rhmax : Int
  rttl : Int
  fresh : List ConnSt
  deriving DecidableEq, Repr

/-- Modelled from the spec: apr_reslist_create builds a fresh engine bound to
the given sizing configuration, with no resources acquired yet. -/
def apr_reslist_create (pmin psmax phmax pttl : Int) (fresh : List ConnSt) : Reslist :=
  { idle := [], acquiredCount := 0,
    rmin := pmin, rsmax := psmax, rhmax := phmax, rttl := pttl, fresh := fresh }

/-- Modelled from the spec: apr_reslist_acquire.  If an idle resource exists,
remove and hand out the most recently released one; else, when below the hard
maximum, construct a new resource (here: take the next element of the
external `fresh` stream; an empty stream is a failed construction); else the
caller cannot be served now (the blocking wait is not representable in a
sequential embedding, and the facade treats every non-success status alike).
`none` in the first component stands for any non-APR_SUCCESS status. -/
def apr_reslist_acquire (r : Reslist) : Option ConnSt × Reslist :=
  match r.idle with
  | c :: rest =>
      (some c, { r with idle := rest, acquiredCount := r.acquiredCount + 1 })
  | [] =>
      if (r.acquiredCount : Int) < r.rhmax then
        match r.fresh with
        | f :: fs => (some f, { r with fresh := fs, acquiredCount := r.acquiredCount + 1 })
        | [] => (none, r)
      else
        (none, r)

/-- Modelled from the spec: apr_reslist_release.  When the resource total is
within the soft maximum, or the idle set is below the minimum, the resource
returns to the idle set (most recently released first); otherwise it is
destroyed.  The spec gives release no failure outcome, so the status
component is always APR_SUCCESS. -/
def apr_reslist_release (r : Reslist) (c : ConnSt) : AprStatus × Reslist :=
  (.APR_SUCCESS,
    if ((r.idle.length : Int) + (r.acquiredCount : Int) ≤ r.rsmax)
        ∨ ((r.idle.length : Int) < r.rmin) then
      { r with idle := c :: r.idle, acquiredCount := r.acquiredCount - 1 }
    else
      { r with acquiredCount := r.acquiredCount - 1 })

/-- Modelled from the spec: apr_reslist_acquired_count reports how many
resources are currently held by callers. -/
def apr_reslist_acquired_count (r : Reslist) : Nat :=
  r.acquiredCount

/-- The <PGconn> container structure (struct tPGconnContainer of
mod_pgconn.h).  The intrusive `m_next` link is represented by list position
in the enclosing server configuration, and the mod_pgproc-owned `m_catalog`
hash (never read by this module) is omitted.  `m_PGconnPool = none` is the
NULL resource-list pointer. -/
structure tPGconnContainer where
  m_PGconnPool : Option Reslist
  m_name : List Nat
  m_connInfo : List Nat
  m_poolMin : Int
  m_poolMaxSoft : Int
  m_poolMaxHard : Int
  m_poolTTL : Int
  m_traceDir : Option (List Nat)
  m_catalogCache : eCatalogCache
  deriving DecidableEq, Repr

/-- The per-server configuration (struct tPGconnServerConfig): the linked
list of <PGconn> containers, in registration order. -/
structure tPGconnServerConfig where
  m_first_PGconnContainer : List tPGconnContainer
  deriving DecidableEq, Repr

/-- ASCII lowercasing of one byte, as the C tolower of strcasecmp does in
the C locale. -/
def asciiLower (b : Nat) : Nat :=
  if 65 ≤ b ∧ b ≤ 90 then b + 32 else b

/-- Equality of two NUL-free byte strings under strcasecmp: compare after
lowercasing every byte. -/
def strcaseEq (a b : List Nat) : Bool :=
  a.map asciiLower == b.map asciiLower

/-- The scanning loop of getPGconnContainerByName: walk the container list
in order and return the first container whose name matches the query under
strcasecmp. -/
def findContainer (l : List tPGconnContainer) (name : List Nat) : Option tPGconnContainer :=
  match l with
  | [] => none
  | c :: rest => if strcaseEq c.m_name name then some c else findContainer rest name

/-- getPGconnContainerByName (mod_pgconn.c lines 38 to 54): NULL config or
NULL name gives NULL; otherwise the first case-insensitive name match in the
container list, or NULL when none matches. -/
def getPGconnContainerByName (cfg : Option tPGconnServerConfig) (connectionName : Option (List Nat)) :
    Option tPGconnContainer :=
  match cfg, connectionName with
  | none, _ => none
  | _, none => none
  | some c, some n => findContainer c.m_first_PGconnContainer n

/-- The result of one acquirePGconn call: the returned status, the container
after the call (its engine state may have changed), the contents of the
callers handle slot after the call (`none` at the outer layer is a NULL slot
pointer), and the number of PQreset calls issued, which instruments the
single-reset recovery policy. -/
structure AcquireOut where
  status : ePGconnStatus
  cont : Option tPGconnContainer
  slot : Option (Option ConnSt)
  resets : Nat
  deriving DecidableEq, Repr

/-- acquirePGconn (mod_pgconn.c lines 248 to 288).  Guards: NULL container or
NULL slot pointer give PGCONN_BAD; a non-empty slot gives
PGCONN_ALREADYACQUIRED; a NULL resource list gives PGCONN_UNAVAILABLE.  Then
the engine acquire runs; any non-success maps to PGCONN_UNAVAILABLE.  A
connection failing the liveness check is PQreset exactly once; if still not
live it is handed back through the ordinary engine release, the slot is
cleared and the status is PGCONN_BAD; otherwise the slot holds the (possibly
reset) connection and the status is PGCONN_ACQUIRED. -/
def acquirePGconn (cont : Option tPGconnContainer) (slot : Option (Option ConnSt)) : AcquireOut :=
  match cont, slot with
  | none, s => { status := .PGCONN_BAD, cont := none, slot := s, resets := 0 }
  | some c, none => { status := .PGCONN_BAD, cont := some c, slot := none, resets := 0 }
  | some c, some (some held) =>
      { status := .PGCONN_ALREADYACQUIRED, cont := some c, slot := some (some held), resets := 0 }
  | some c, some none =>
      match c.m_PGconnPool with
      | none => { status := .PGCONN_UNAVAILABLE, cont := some c, slot := some none, resets := 0 }
      | some pool =>
          match apr_reslist_acquire pool with
          | (none, pool2) =>
              { status := .PGCONN_UNAVAILABLE,
                cont := some { c with m_PGconnPool := some pool2 },
                slot := some none, resets := 0 }
          | (some conn, pool2) =>
              if conn.statusOk then
                { status := .PGCONN_ACQUIRED,
                  cont := some { c with m_PGconnPool := some pool2 },
                  slot := some (some conn), resets := 0 }
              else
                let conn2 := PQreset conn
                if conn2.statusOk then
                  { status := .PGCONN_ACQUIRED,
                    cont := some { c with m_PGconnPool := some pool2 },
                    slot := some (some conn2), resets := 1 }
                else
                  { status := .PGCONN_BAD,
                    cont := some { c with m_PGconnPool := some (apr_reslist_release pool2 conn2).2 },
                    slot := some none, resets := 1 }

/-- The result of one releasePGconn call: status, container after the call,
and the slot contents after the call. -/
structure ReleaseOut where
  status : ePGconnStatus
  cont : Option tPGconnContainer
  slot : Option (Option ConnSt)
  deriving DecidableEq, Repr

/-- releasePGconn (mod_pgconn.c lines 305 to 321).  NULL container or NULL
slot pointer give PGCONN_BAD untouched; an empty slot gives PGCONN_BAD
untouched; otherwise the connection goes back to the engine and, on
APR_SUCCESS, the slot is cleared and the status is PGCONN_RELEASED (a
non-success engine status would fall through to PGCONN_BAD with the slot
kept, mirroring the C control flow, though the modelled release never
fails).  The C passes the resource list to apr_reslist_release without a
NULL check, so a NULL engine with a non-empty slot dereferences NULL:
that path has no defined outcome (`none`). -/
def releasePGconn (cont : Option tPGconnContainer) (slot : Option (Option ConnSt)) :
    Option ReleaseOut :=
  match cont, slot with
  | none, s => some { status := .PGCONN_BAD, cont := none, slot := s }
  | some c, none => some { status := .PGCONN_BAD, cont := some c, slot := none }
  | some c, some none => some { status := .PGCONN_BAD, cont := some c, slot := some none }
  | some c, some (some held) =>
      match c.m_PGconnPool with
      | none => none
      | some pool =>
          match apr_reslist_release pool held with
          | (.APR_SUCCESS, pool2) =>
              some { status := .PGCONN_RELEASED,
                     cont := some { c with m_PGconnPool := some pool2 },
                     slot := some none }
          | (.APR_EGENERAL, pool2) =>
              some { status := .PGCONN_BAD,
                     cont := some { c with m_PGconnPool := some pool2 },
                     slot := some (some held) }

/-- measurePGconnAvailability (mod_pgconn.c lines 332 to 344).  A NULL
container gives 0.  Otherwise the C computes
(m_poolMaxHard - apr_reslist_acquired_count(m_PGconnPool)) * 100 / m_poolMaxHard
with no NULL check on the resource list and no zero check on the divisor:
a NULL engine dereferences NULL inside apr_reslist_acquired_count, and a
zero hard maximum divides by zero; both paths have no defined outcome
(`none`).  `Int.tdiv` is C truncating division. -/
def measurePGconnAvailability (cont : Option tPGconnContainer) : Option Int :=
  match cont with
  | none => some 0
  | some c =>
      match c.m_PGconnPool with
      | none => none
      | some pool =>
          if c.m_poolMaxHard = 0 then none
          else
            some (Int.tdiv ((c.m_poolMaxHard - (apr_reslist_acquired_count pool : Int)) * 100)
                    c.m_poolMaxHard)

/-- closePGconn (mod_pgconn.c lines 186 to 199): the plain resource-list
destructor.  A NULL connection returns APR_EGENERAL with nothing closed;
otherwise the connection is passed to PQfinish and APR_SUCCESS returns.
The second component lists the connections handed to PQfinish. -/
def closePGconn (conn : Option ConnSt) : AprStatus × List ConnSt :=
  match conn with
  | none => (.APR_EGENERAL, [])
  | some c => (.APR_SUCCESS, [c])

/-- closePGconn_tracing (mod_pgconn.c lines 212 to 227): the tracing
resource-list destructor.  A NULL connection returns APR_EGENERAL with
nothing closed; otherwise tracing is detached by PQuntrace and the
connection is passed to PQfinish, returning APR_SUCCESS. -/
def closePGconn_tracing (conn : Option ConnSt) : AprStatus × List ConnSt :=
  match conn with
  | none => (.APR_EGENERAL, [])
  | some c => (.APR_SUCCESS, [PQuntrace c])

/-- The observable outcome of one constructor call: returned status, the
value stored through the slot pointer (when that pointer is non-NULL), and
the connections handed to PQfinish during the call. -/
structure FactoryOut where
  status : AprStatus
  slot : Option ConnSt
  finished : List ConnSt
  deriving DecidableEq, Repr

/-- openPGconn_tracing (mod_pgconn.c lines 118 to 173): the tracing
resource-list constructor.  `slotPtr` and `poolPtr` record whether the slot
pointer and the memory pool are non-NULL; `pqconnectdbResult` is the outcome
of the external PQconnectdb call (NULL on out-of-memory); `fopenOk` is the
outcome of opening the trace sink file.  A NULL argument gives APR_EGENERAL.
A refused backend connection is PQfinish-ed and gives APR_EGENERAL.  A live
connection whose trace sink cannot be opened is PQfinish-ed before
APR_EGENERAL returns.  Otherwise PQtrace attaches and the traced connection
is stored with APR_SUCCESS. -/
def openPGconn_tracing (slotPtr : Bool) (cont : Option tPGconnContainer) (poolPtr : Bool)
    (pqconnectdbResult : Option ConnSt) (fopenOk : Bool) : FactoryOut :=
  if slotPtr = false ∨ cont = none ∨ poolPtr = false then
    { status := .APR_EGENERAL, slot := none, finished := [] }
  else
    match pqconnectdbResult with
    | none => { status := .APR_EGENERAL, slot := none, finished := [] }
    | some c =>
        if c.statusOk = false then
          { status := .APR_EGENERAL, slot := none, finished := [c] }
        else if fopenOk = false then
          { status := .APR_EGENERAL, slot := none, finished := [c] }
        else
          { status := .APR_SUCCESS, slot := some (PQtrace c), finished := [] }

/-- A <PGconn> container as PGconn_containerCommand creates it before the
container body is parsed: no resource list, the given name, empty connection
info, zero minimum and soft maximum, hard maximum 1, zero TTL, no trace
directory, catalog cache disabled (mod_pgconn.c lines 451 to 482). -/
def newPGconnContainer (name : List Nat) : tPGconnContainer :=
  { m_PGconnPool := none, m_name := name, m_connInfo := [],
    m_poolMin := 0, m_poolMaxSoft := 0, m_poolMaxHard := 1, m_poolTTL := 0,
    m_traceDir := none, m_catalogCache := .DISABLED }

/-- PGconn_containerCommand (mod_pgconn.c lines 412 to 572), for a container
directive with an empty body (no claim under verification depends on the
body-parsing loop, and with the default DISABLED catalog cache the catalog
hook is not invoked).  `args` is the raw directive argument: the connection
name with the trailing byte 62, the closing angle bracket.  The C checks the
first byte, requires a closing bracket, then scans the existing containers
comparing each STORED name (bracket already stripped) against the RAW
argument with the case-sensitive strcmp; on no match it appends a fresh
container whose stored name drops the final byte of the argument. -/
def PGconn_containerCommand (containers : List tPGconnContainer) (args : List Nat) :
    Except String (List tPGconnContainer) :=
  if args.head? = some 62 then
    .error ("Missing Connection Name")
  else if (args.contains 62) = false then
    .error ("Missing \">\"")
  else if containers.any (fun c => c.m_name == args) then
    .error ("Duplicate Connection Name")
  else
    .ok (containers ++ [newPGconnContainer (args.dropLast)])

/-- PGconn_childInit (mod_pgconn.c lines 636 to 695): at child-process start,
walk every virtual-host configuration and, for each container whose hard
maximum is at least 1, create its resource list bound to that containers
sizing configuration; containers with a smaller hard maximum are left
without an engine.  `fresh` is the external constructor outcome stream
handed to each created engine. -/
def PGconn_childInit (fresh : List ConnSt) (servers : List tPGconnServerConfig) :
    List tPGconnServerConfig :=
  servers.map (fun s =>
    { m_first_PGconnContainer := s.m_first_PGconnContainer.map (fun c =>
        if 1 ≤ c.m_poolMaxHard then
          { c with m_PGconnPool := some (apr_reslist_create c.m_poolMin c.m_poolMaxSoft c.m_poolMaxHard c.m_poolTTL fresh) }
        else c) })

/-! Concrete values used by witnesses and counterexamples. -/

/-- A connection whose liveness check fails and whose reset also fails. -/
def badConn : ConnSt :=
  { id := 1, statusOk := false, statusAfterReset := false, tracing := false }

/-- A connection whose liveness check fails but whose reset succeeds. -/
def flakyConn : ConnSt :=
  { id := 2, statusOk := false, statusAfterReset := true, tracing := false }

/-- A live connection. -/
def okConn : ConnSt :=
  { id := 3, statusOk := true, statusAfterReset := true, tracing := false }

/-- The byte string db1. -/
def db1Name : List Nat := [100, 98, 49]

/-- The raw container directive argument for the name db1: the name followed
by byte 62, the closing angle bracket. -/
def db1Args : List Nat := [100, 98, 49, 62]

/-- The byte string db2. -/
def db2Name : List Nat := [100, 98, 50]

/-- The byte string DB1, the name db1 in upper case. -/
def db1Upper : List Nat := [68, 66, 49]

/-- An engine with minimum 0, soft maximum 2, hard maximum 3, whose only
idle resource is `badConn`. -/
def badPool : Reslist :=
  { idle := [badConn], acquiredCount := 0, rmin := 0, rsmax := 2, rhmax := 3, rttl := 0, fresh := [] }

/-- A container named db1 owning `badPool`. -/
def badCont : tPGconnContainer :=
  { newPGconnContainer db1Name with
      m_poolMaxSoft := 2
      m_poolMaxHard := 3
      m_PGconnPool := some badPool }

/-- `badPool` as acquirePGconn leaves it after handing out `badConn`,
failing the liveness check, failing the reset, and releasing the connection
back: the reset connection sits in the idle set again. -/
def badPoolAfter : Reslist :=
  { idle := [PQreset badConn], acquiredCount := 0, rmin := 0, rsmax := 2, rhmax := 3, rttl := 0,
    fresh := [] }

/-- An engine whose only idle resource is `flakyConn`. -/
def flakyPool : Reslist :=
  { idle := [flakyConn], acquiredCount := 0, rmin := 0, rsmax := 2, rhmax := 3, rttl := 0,
    fresh := [] }

/-- A container named db1 owning `flakyPool`. -/
def flakyCont : tPGconnContainer :=
  { newPGconnContainer db1Name with
      m_poolMaxSoft := 2
      m_poolMaxHard := 3
      m_PGconnPool := some flakyPool }

/-- `flakyPool` right after its one idle resource is handed out. -/
def flakyPoolMid : Reslist :=
  { idle := [], acquiredCount := 1, rmin := 0, rsmax := 2, rhmax := 3, rttl := 0, fresh := [] }

/-- An exhausted engine: hard maximum 3, three resources acquired, none
idle, construction stream empty. -/
def fullPool : Reslist :=
  { idle := [], acquiredCount := 3, rmin := 1, rsmax := 2, rhmax := 3, rttl := 0, fresh := [] }

/-- A container named db1 owning the exhausted `fullPool`. -/
def fullCont : tPGconnContainer :=
  { newPGconnContainer db1Name with
      m_poolMin := 1
      m_poolMaxSoft := 2
      m_poolMaxHard := 3
      m_PGconnPool := some fullPool }

/-- A freshly initialized container: its engine comes straight from
apr_reslist_create, with zero acquisitions. -/
def freshCont : tPGconnContainer :=
  { newPGconnContainer db1Name with
      m_poolMin := 1
      m_poolMaxSoft := 2
      m_poolMaxHard := 3
      m_PGconnPool := some (apr_reslist_create 1 2 3 0 []) }

/-- A registered container named db2 with hard maximum 0: child
initialization gives it no engine. -/
def noEngineCont : tPGconnContainer :=
  { newPGconnContainer db2Name with m_poolMaxHard := 0 }

/-- A configuration scope holding a default container named db1 and the
hard-maximum-0 container named db2. -/
def scope1 : tPGconnServerConfig :=
  { m_first_PGconnContainer := [newPGconnContainer db1Name, noEngineCont] }

/-- `scope1` after PGconn_childInit with an empty construction stream: the
db1 container received an engine, the db2 container did not. -/
def scope1Init : tPGconnServerConfig :=
  { m_first_PGconnContainer :=
      [{ newPGconnContainer db1Name with m_PGconnPool := some (apr_reslist_create 0 0 1 0 []) },
       noEngineCont] }

/-- A registry scope holding just the db1 container, for lookup examples. -/
def cfg1 : tPGconnServerConfig :=
  { m_first_PGconnContainer := [newPGconnContainer db1Name] }

/-! Helper lemmas. -/

theorem asciiLower_idem (b : Nat) : asciiLower (asciiLower b) = asciiLower b := by
  unfold asciiLower
  by_cases h : 65 ≤ b ∧ b ≤ 90
  · simp only [if_pos h]
    rw [if_neg (by omega : ¬ (65 ≤ b + 32 ∧ b + 32 ≤ 90))]
  · simp only [if_neg h]

theorem strcaseEq_lower_right (a b : List Nat) :
    strcaseEq a (b.map asciiLower) = strcaseEq a b := by
  unfold strcaseEq
  rw [List.map_map]
  have h : (asciiLower ∘ asciiLower) = asciiLower := by
    funext x
    exact asciiLower_idem x
  rw [h]

theorem findContainer_eq_find (l : List tPGconnContainer) (name : List Nat) :
    findContainer l name = l.find? (fun c => strcaseEq c.m_name name) := by
  induction l with
  | nil => rfl
  | cons c rest ih =>
      cases h : strcaseEq c.m_name name with
      | true => simp [findContainer, h, List.find?_cons_of_pos]
      | false => simp [findContainer, h, List.find?_cons_of_neg, ih]

theorem findContainer_lower (l : List tPGconnContainer) (name : List Nat) :
    findContainer l (name.map asciiLower) = findContainer l name := by
  induction l with
  | nil => rfl
  | cons c rest ih =>
      unfold findContainer
      rw [strcaseEq_lower_right, ih]

/-! Claim theorems. -/

/-- C1 (amended): whenever acquirePGconn obtains a connection from the
engine, a connection that passes the liveness check is handed to the caller
as PGCONN_ACQUIRED with zero resets; a connection that fails the check is
PQreset exactly once, and is handed to the caller as PGCONN_ACQUIRED when
the reset revives it; when it is still not live after that single reset,
acquirePGconn returns PGCONN_BAD with the handle slot cleared to empty, and
the connection goes back to the engine through the ordinary release, so it
re-enters the idle set whenever the release retention policy keeps it. -/
theorem C1_single_reset_recovery (cont : tPGconnContainer) (pool pool2 : Reslist) (c : ConnSt)
    (hp : cont.m_PGconnPool = some pool)
    (ha : apr_reslist_acquire pool = (some c, pool2)) :
    (c.statusOk = true →
      acquirePGconn (some cont) (some none)
        = { status := .PGCONN_ACQUIRED, cont := some { cont with m_PGconnPool := some pool2 },
            slot := some (some c), resets := 0 })
    ∧ (c.statusOk = false → (PQreset c).statusOk = true →
      acquirePGconn (some cont) (some none)
        = { status := .PGCONN_ACQUIRED, cont := some { cont with m_PGconnPool := some pool2 },
            slot := some (some (PQreset c)), resets := 1 })
    ∧ (c.statusOk = false → (PQreset c).statusOk = false →
      acquirePGconn (some cont) (some none)
        = { status := .PGCONN_BAD,
            cont := some { cont with
              m_PGconnPool := some (apr_reslist_release pool2 (PQreset c)).2 },
            slot := some none, resets := 1 }) := by
  refine ⟨?_, ?_, ?_⟩
  · intro h1
    simp [acquirePGconn, hp, ha, h1]
  · intro h1 h2
    simp [acquirePGconn, hp, ha, h1, h2]
  · intro h1 h2
    simp [acquirePGconn, hp, ha, h1, h2]

/-- C1 witness: a connection that fails the liveness check but recovers on
its single reset is handed to the caller as PGCONN_ACQUIRED after exactly
one reset. -/
theorem C1_single_reset_recovery_witness :
    acquirePGconn (some flakyCont) (some none)
      = { status := .PGCONN_ACQUIRED,
          cont := some { flakyCont with m_PGconnPool := some flakyPoolMid },
          slot := some (some (PQreset flakyConn)), resets := 1 } :=
  (C1_single_reset_recovery flakyCont flakyPool flakyPoolMid flakyConn (by decide)
    (by decide)).2.1 (by decide) (by decide)

/-- C1 counterexample: on the concrete container `badCont` the acquired
connection fails its liveness check and its single reset, acquirePGconn
returns PGCONN_BAD with the slot cleared, yet the connection, far from
being kept out of the idle set, is the idle set of the resulting engine
state: the code hands the dead connection back through the ordinary
apr_reslist_release, refuting the claim that the connection is not returned
to the idle set. -/
theorem C1_bad_connection_reenters_idle_set :
    acquirePGconn (some badCont) (some none)
      = { status := .PGCONN_BAD,
          cont := some { badCont with m_PGconnPool := some badPoolAfter },
          slot := some none, resets := 1 }
    ∧ PQreset badConn ∈ badPoolAfter.idle := by
  decide

/-- C2 (code bug): registering the name db1 twice in the same scope.  The
duplicate scan of PGconn_containerCommand compares each stored name, whose
closing bracket byte is already stripped, against the raw new argument that
still carries the closing bracket, and does so with the case-sensitive
strcmp, so the scan can never match a previously registered plain name:
the second registration of db1 succeeds and the scope ends with two
containers both named db1, where the claim demands that it fail with
DuplicateNameError. -/
theorem C2_duplicate_db1_not_rejected :
    PGconn_containerCommand [] db1Args = .ok [newPGconnContainer db1Name]
    ∧ PGconn_containerCommand [newPGconnContainer db1Name] db1Args
        = .ok [newPGconnContainer db1Name, newPGconnContainer db1Name] := by
  constructor <;> rfl

/-- C3 (code bug): measurePGconnAvailability returns 0 on an absent
container, 100 on a freshly initialized pool with zero acquisitions, and 0
when the acquired count equals the hard maximum, as the claim states; but
on a container that has no engine the code passes the NULL resource list
straight to apr_reslist_acquired_count, which dereferences it, so that call
has no defined result at all instead of the 0 the claim promises. -/
theorem C3_availability_eval :
    measurePGconnAvailability none = some 0
    ∧ measurePGconnAvailability (some freshCont) = some 100
    ∧ measurePGconnAvailability (some fullCont) = some 0
    ∧ measurePGconnAvailability (some noEngineCont) = none := by
  decide

/-- C4: the acquirePGconn checks run in order: a non-empty handle slot
returns PGCONN_ALREADYACQUIRED with the engine untouched and the slot
unchanged; then an absent engine returns PGCONN_UNAVAILABLE; then a
non-success engine acquire maps to PGCONN_UNAVAILABLE. -/
theorem C4_acquire_check_order (cont : tPGconnContainer) (slot : Option ConnSt) :
    (∀ c, slot = some c →
      acquirePGconn (some cont) (some slot)
        = { status := .PGCONN_ALREADYACQUIRED, cont := some cont, slot := some slot,
            resets := 0 })
    ∧ (slot = none → cont.m_PGconnPool = none →
      acquirePGconn (some cont) (some slot)
        = { status := .PGCONN_UNAVAILABLE, cont := some cont, slot := some none, resets := 0 })
    ∧ (∀ pool, slot = none → cont.m_PGconnPool = some pool →
        (apr_reslist_acquire pool).1 = none →
      acquirePGconn (some cont) (some slot)
        = { status := .PGCONN_UNAVAILABLE,
            cont := some { cont with m_PGconnPool := some (apr_reslist_acquire pool).2 },
            slot := some none, resets := 0 }) := by
  refine ⟨?_, ?_, ?_⟩
  · rintro c rfl
    rfl
  · rintro rfl hp
    simp [acquirePGconn, hp]
  · rintro pool rfl hp hacq
    rcases h : apr_reslist_acquire pool with ⟨o, p2⟩
    rw [h] at hacq
    cases o with
    | some c => simp at hacq
    | none => simp [acquirePGconn, hp, h]

/-- C4 witness: the three checks at concrete inputs: an occupied slot on a
healthy container, an empty slot on an engine-less container, and an empty
slot on a container whose engine is exhausted. -/
theorem C4_acquire_check_order_witness :
    acquirePGconn (some freshCont) (some (some okConn))
      = { status := .PGCONN_ALREADYACQUIRED, cont := some freshCont,
          slot := some (some okConn), resets := 0 }
    ∧ acquirePGconn (some noEngineCont) (some none)
      = { status := .PGCONN_UNAVAILABLE, cont := some noEngineCont, slot := some none,
          resets := 0 }
    ∧ acquirePGconn (some fullCont) (some none)
      = { status := .PGCONN_UNAVAILABLE,
          cont := some { fullCont with m_PGconnPool := some (apr_reslist_acquire fullPool).2 },
          slot := some none, resets := 0 } :=
  ⟨(C4_acquire_check_order freshCont (some okConn)).1 okConn rfl,
   (C4_acquire_check_order noEngineCont none).2.1 rfl (by decide),
   (C4_acquire_check_order fullCont none).2.2 fullPool rfl (by decide) (by decide)⟩

/-- C5: releasePGconn on an empty handle slot returns PGCONN_BAD with the
container and the slot unchanged; on a non-empty slot (the container then
holds an engine, since the connection was acquired from it) the connection
goes back to the engine and PGCONN_RELEASED returns with the slot cleared
to empty. -/
theorem C5_release (cont : tPGconnContainer) (slot : Option ConnSt) :
    (slot = none →
      releasePGconn (some cont) (some slot)
        = some { status := .PGCONN_BAD, cont := some cont, slot := some none })
    ∧ (∀ c pool, slot = some c → cont.m_PGconnPool = some pool →
      releasePGconn (some cont) (some slot)
        = some { status := .PGCONN_RELEASED,
                 cont := some { cont with m_PGconnPool := some (apr_reslist_release pool c).2 },
                 slot := some none }) := by
  constructor
  · rintro rfl
    rfl
  · rintro c pool rfl hp
    simp [releasePGconn, hp, apr_reslist_release]

/-- C5 witness: releasing an empty slot reports PGCONN_BAD; releasing a
held connection reports PGCONN_RELEASED with the slot cleared. -/
theorem C5_release_witness :
    releasePGconn (some freshCont) (some none)
      = some { status := .PGCONN_BAD, cont := some freshCont, slot := some none }
    ∧ releasePGconn (some freshCont) (some (some okConn))
      = some { status := .PGCONN_RELEASED,
               cont := some { freshCont with
                 m_PGconnPool := some (apr_reslist_release (apr_reslist_create 1 2 3 0 []) okConn).2 },
               slot := some none } :=
  ⟨(C5_release freshCont none).1 rfl,
   (C5_release freshCont (some okConn)).2 okConn (apr_reslist_create 1 2 3 0 []) rfl (by decide)⟩

/-- C6: getPGconnContainerByName returns the first registered container
whose configured name matches the queried name under the case-insensitive
comparison, returns none exactly when no configured name matches, and is
unchanged when the queried name is lowercased. -/
theorem C6_lookup_first_match (cfg : tPGconnServerConfig) (name : List Nat) :
    getPGconnContainerByName (some cfg) (some name)
        = cfg.m_first_PGconnContainer.find? (fun c => strcaseEq c.m_name name)
    ∧ (getPGconnContainerByName (some cfg) (some name) = none ↔
        ∀ c ∈ cfg.m_first_PGconnContainer, strcaseEq c.m_name name = false)
    ∧ getPGconnContainerByName (some cfg) (some (name.map asciiLower))
        = getPGconnContainerByName (some cfg) (some name) := by
  refine ⟨?_, ?_, ?_⟩
  · exact findContainer_eq_find cfg.m_first_PGconnContainer name
  · show findContainer cfg.m_first_PGconnContainer name = none ↔ _
    rw [findContainer_eq_find]
    simp [List.find?_eq_none]
  · show findContainer cfg.m_first_PGconnContainer (name.map asciiLower)
        = findContainer cfg.m_first_PGconnContainer name
    exact findContainer_lower cfg.m_first_PGconnContainer name

/-- C6 witness: looking up the upper-case name DB1 in a scope that
registered db1 yields the first case-insensitive match. -/
theorem C6_lookup_first_match_witness :
    getPGconnContainerByName (some cfg1) (some db1Upper)
        = cfg1.m_first_PGconnContainer.find? (fun c => strcaseEq c.m_name db1Upper) :=
  (C6_lookup_first_match cfg1 db1Upper).1

/-- C7: after child initialization, a registered container carries an
engine exactly when its hard maximum is at least 1 (containers enter
configuration with no engine), and every acquire with an empty handle slot
on a container without an engine returns PGCONN_UNAVAILABLE. -/
theorem C7_engine_exactly_when_positive_hard_max (fresh : List ConnSt)
    (servers : List tPGconnServerConfig)
    (h0 : ∀ s ∈ servers, ∀ c ∈ s.m_first_PGconnContainer, c.m_PGconnPool = none) :
    (∀ s2 ∈ PGconn_childInit fresh servers, ∀ c2 ∈ s2.m_first_PGconnContainer,
        (c2.m_PGconnPool.isSome = true ↔ 1 ≤ c2.m_poolMaxHard))
    ∧ (∀ cont : tPGconnContainer, cont.m_PGconnPool = none →
        acquirePGconn (some cont) (some none)
          = { status := .PGCONN_UNAVAILABLE, cont := some cont, slot := some none,
              resets := 0 }) := by
  constructor
  · intro s2 hs2 c2 hc2
    rw [PGconn_childInit, List.mem_map] at hs2
    obtain ⟨s, hs, rfl⟩ := hs2
    simp only [List.mem_map] at hc2
    obtain ⟨c, hc, rfl⟩ := hc2
    by_cases hh : 1 ≤ c.m_poolMaxHard
    · simp [hh]
    · simp [hh, h0 s hs c hc]
  · intro cont hnone
    simp [acquirePGconn, hnone]

/-- C7 witness: in the concrete scope holding db1 (hard maximum 1) and db2
(hard maximum 0), after child initialization the db2 container has no
engine, which its hard maximum being below 1 reflects, and an acquire on it
returns PGCONN_UNAVAILABLE. -/
theorem C7_engine_exactly_when_positive_hard_max_witness :
    (noEngineCont.m_PGconnPool.isSome = true ↔ 1 ≤ noEngineCont.m_poolMaxHard)
    ∧ acquirePGconn (some noEngineCont) (some none)
      = { status := .PGCONN_UNAVAILABLE, cont := some noEngineCont, slot := some none,
          resets := 0 } :=
  ⟨(C7_engine_exactly_when_positive_hard_max [] [scope1] (by decide)).1 scope1Init
      (by decide) noEngineCont (by decide),
   (C7_engine_exactly_when_positive_hard_max [] [scope1] (by decide)).2 noEngineCont
      (by decide)⟩

/-- C8 counterexample: destroy applied to a NULL connection returns
APR_EGENERAL from both the plain and the tracing destructor, and
APR_EGENERAL is the failure status, the one their own headers document as
"there was no connection to close": the null destroy IS reported as an
error, refuting the claim that it is not an error at this layer. -/
theorem C8_null_destroy_reports_error :
    (closePGconn none).1 = .APR_EGENERAL
    ∧ (closePGconn_tracing none).1 = .APR_EGENERAL
    ∧ AprStatus.APR_EGENERAL ≠ AprStatus.APR_SUCCESS := by
  decide

/-- C8 (amended): destroy applied to a NULL connection is a no-op in that
neither destructor passes anything to PQfinish, but both the plain and the
tracing destructor report it as the error status APR_EGENERAL rather than
as success. -/
theorem C8_null_destroy_noop_but_error :
    closePGconn none = (.APR_EGENERAL, [])
    ∧ closePGconn_tracing none = (.APR_EGENERAL, []) := by
  decide

/-- C9: in the tracing constructor, when the backend connection succeeds
(the liveness check passes) but the trace sink file cannot be opened, the
just-opened connection is passed to PQfinish before APR_EGENERAL returns,
and nothing is stored in the output slot: no connection is leaked on that
error path. -/
theorem C9_trace_sink_failure_destroys_connection (cont : tPGconnContainer) (c : ConnSt)
    (hok : c.statusOk = true) :
    openPGconn_tracing true (some cont) true (some c) false
      = { status := .APR_EGENERAL, slot := none, finished := [c] } := by
  simp [openPGconn_tracing, hok]

/-- C9 witness: the trace-sink failure path at a concrete live
connection. -/
theorem C9_trace_sink_failure_destroys_connection_witness :
    openPGconn_tracing true (some (newPGconnContainer db1Name)) true (some okConn) false
      = { status := .APR_EGENERAL, slot := none, finished := [okConn] } :=
  C9_trace_sink_failure_destroys_connection (newPGconnContainer db1Name) okConn rfl

/-- C10: acquirePGconn and releasePGconn called with a NULL container or a
NULL connection-slot pointer return PGCONN_BAD with the container and the
slot contents untouched. -/
theorem C10_null_guards (cont : Option tPGconnContainer) (slot : Option (Option ConnSt)) :
    (cont = none →
      acquirePGconn cont slot
          = { status := .PGCONN_BAD, cont := none, slot := slot, resets := 0 }
      ∧ releasePGconn cont slot = some { status := .PGCONN_BAD, cont := none, slot := slot })
    ∧ (slot = none →
      acquirePGconn cont slot
          = { status := .PGCONN_BAD, cont := cont, slot := none, resets := 0 }
      ∧ releasePGconn cont slot = some { status := .PGCONN_BAD, cont := cont, slot := none }) := by
  constructor
  · rintro rfl
    exact ⟨rfl, rfl⟩
  · rintro rfl
    cases cont <;> exact ⟨rfl, rfl⟩

/-- C10 witness: the NULL guards at concrete inputs. -/
theorem C10_null_guards_witness :
    (acquirePGconn none (some (some okConn))
        = { status := .PGCONN_BAD, cont := none, slot := some (some okConn), resets := 0 }
      ∧ releasePGconn none (some (some okConn))
        = some { status := .PGCONN_BAD, cont := none, slot := some (some okConn) })
    ∧ (acquirePGconn (some freshCont) none
        = { status := .PGCONN_BAD, cont := some freshCont, slot := none, resets := 0 }
      ∧ releasePGconn (some freshCont) none
        = some { status := .PGCONN_BAD, cont := some freshCont, slot := none }) :=
  ⟨(C10_null_guards none (some (some okConn))).1 rfl,
   (C10_null_guards (some freshCont) none).2 rfl⟩

end ModPgconn
